import Mathlib

/-!
Shallow embedding of `src/PoseLandmarker/posture_classifier.py`.

The program classifies human posture from pose landmarks.  Its core is a
small geometric computation: four anchor points (head, neck, chest, hip)
are derived from landmark indices {0, 11, 12, 23, 24}, four angles are
computed from them, and fixed thresholds select one of three labels.

Modelling conventions:
* Python floats are modelled as real numbers `ℝ`.
* `math.atan2 dy dx` is modelled as `Complex.arg ⟨dx, dy⟩`: both return the
  angle of the vector `(dx, dy)` in `(-π, π]`, and both send `(0, 0)` to `0`.
* `math.degrees r` is `r * (180 / π)`.
* A landmark array is a function `ℕ → ℝ × ℝ` (the detector produces 33
  landmarks; the core reads indices 0, 11, 12, 23, 24).
* numpy buffers and cv2 drawing are modelled explicitly: a buffer holds its
  camera pixel data together with the list of overlay operations cv2 has
  rasterized into it; `.copy()` produces a new buffer with equal contents,
  and each cv2 call returns the updated target buffer.
-/

open Real

noncomputable section

abbrev Point : Type := ℝ × ℝ

abbrev Landmarks : Type := ℕ → Point

/-- Threshold for Neck-Chest (L-Posture), `TH1 = 105.0` in the source. -/
def TH1 : ℝ := 105.0

/-- Threshold for Chest-Hip (L-Posture), `TH2 = 110.0` in the source. -/
def TH2 : ℝ := 110.0

/-- Threshold for Head-Neck (T-Posture), `TH3 = 70.0` in the source. -/
def TH3 : ℝ := 70.0

/-- Threshold for Weighted Angle (T-Posture), `TH4 = 80.0` in the source. -/
def TH4 : ℝ := 80.0

/-- `midpoint(a, b)` from the source: componentwise mean of two 2D points. -/
def midpoint_py (a b : Point) : Point :=
  ((a.1 + b.1) / 2.0, (a.2 + b.2) / 2.0)

/-- `math.atan2 dy dx`, modelled by the argument of the complex number
`dx + dy·i`, which lies in `(-π, π]` and is `0` at the origin. -/
noncomputable def atan2 (dy dx : ℝ) : ℝ := Complex.arg ⟨dx, dy⟩

/-- `math.degrees`: radians to degrees. -/
noncomputable def degrees (r : ℝ) : ℝ := r * (180 / π)

/-- `angle_between(p1, p2)` from the source:
`ang = abs(degrees(atan2(dy, dx)))` for `dx = p1.x - p2.x`,
`dy = p1.y - p2.y`, followed by `if ang > 180: ang = 360 - ang`. -/
noncomputable def angle_between (p1 p2 : Point) : ℝ :=
  let dx := p1.1 - p2.1
  let dy := p1.2 - p2.2
  let ang := |degrees (atan2 dy dx)|
  if ang > 180 then 360 - ang else ang

/-- The same computation with the `if ang > 180` correction removed.
Written from the spec's words for comparison with `angle_between`. -/
noncomputable def angle_between_nobranch (p1 p2 : Point) : ℝ :=
  |degrees (atan2 (p1.2 - p2.2) (p1.1 - p2.1))|

/-- `classify_posture(theta1, theta2, theta3, theta4)` from the source:
ordered threshold rule returning a label and a BGR color. -/
noncomputable def classify_posture (theta1 theta2 theta3 theta4 : ℝ) :
    String × ℕ × ℕ × ℕ :=
  if theta2 > TH1 ∧ theta3 > TH2 then ("L-Posture", (0, 165, 255))
  else if theta1 ≤ TH3 ∧ theta4 ≤ TH4 then ("T-Posture", (0, 0, 255))
  else ("Good Posture", (0, 255, 0))

/-! ### Per-frame geometric pipeline (`process_frame`, lines 70-100)

The following definitions embed the angle/classification part of
`process_frame`, starting from the pixel-space landmark array `lms_px`
(called `L` below) over a frame of width `w`. -/

/-- `nose_x = lms_px[0][0]`. -/
def noseX (L : Landmarks) : ℝ := (L 0).1

/-- `avg_sh_x = (lms_px[11][0] + lms_px[12][0]) / 2.0`. -/
def avgShX (L : Landmarks) : ℝ := ((L 11).1 + (L 12).1) / 2.0

/-- `is_facing_left = nose_x < avg_sh_x`. -/
def is_facing_left (L : Landmarks) : Prop := noseX L < avgShX L

instance (L : Landmarks) : Decidable (is_facing_left L) :=
  inferInstanceAs (Decidable (noseX L < avgShX L))

/-- The effect of the mirroring loop `math_lms[i][0] = w - math_lms[i][0]`
applied to every landmark. -/
def mirrorX (w : ℝ) (L : Landmarks) : Landmarks :=
  fun i => (w - (L i).1, (L i).2)

/-- `math_lms`: a copy of `lms_px`, mirrored when the subject faces left. -/
def math_lms (w : ℝ) (L : Landmarks) : Landmarks :=
  if is_facing_left L then mirrorX w L else L

/-- `head = math_lms[0]`. -/
def headPt (w : ℝ) (L : Landmarks) : Point := math_lms w L 0

/-- `neck = midpoint(math_lms[11], math_lms[12])`. -/
def neckPt (w : ℝ) (L : Landmarks) : Point :=
  midpoint_py (math_lms w L 11) (math_lms w L 12)

/-- `hip = midpoint(math_lms[23], math_lms[24])`. -/
def hipPt (w : ℝ) (L : Landmarks) : Point :=
  midpoint_py (math_lms w L 23) (math_lms w L 24)

/-- `chest`: componentwise mean of `math_lms[11], math_lms[12], math_lms[23],
math_lms[24]`. -/
def chestPt (w : ℝ) (L : Landmarks) : Point :=
  (((math_lms w L 11).1 + (math_lms w L 12).1 + (math_lms w L 23).1 +
      (math_lms w L 24).1) / 4.0,
   ((math_lms w L 11).2 + (math_lms w L 12).2 + (math_lms w L 23).2 +
      (math_lms w L 24).2) / 4.0)

/-- `theta1 = angle_between(head, neck)`. -/
def theta1 (w : ℝ) (L : Landmarks) : ℝ := angle_between (headPt w L) (neckPt w L)

/-- `theta2 = angle_between(neck, chest)`. -/
def theta2 (w : ℝ) (L : Landmarks) : ℝ := angle_between (neckPt w L) (chestPt w L)

/-- `theta3 = angle_between(chest, hip)`. -/
def theta3 (w : ℝ) (L : Landmarks) : ℝ := angle_between (chestPt w L) (hipPt w L)

/-- `theta4 = 0.6*theta1 + 0.2*theta2 + 0.2*theta3`. -/
def theta4 (w : ℝ) (L : Landmarks) : ℝ :=
  0.6 * theta1 w L + 0.2 * theta2 w L + 0.2 * theta3 w L

/-- `label, color = classify_posture(theta1, theta2, theta3, theta4)`. -/
def postureResult (w : ℝ) (L : Landmarks) : String × ℕ × ℕ × ℕ :=
  classify_posture (theta1 w L) (theta2 w L) (theta3 w L) (theta4 w L)

/-! ### Frame buffers and the full `process_frame` (lines 54-130)

A numpy image buffer is modelled as its camera pixel data together with the
list of overlay operations cv2 has rasterized into it.  `.copy()` yields a
new buffer with equal contents; every cv2 drawing call returns the updated
target buffer, so which buffer each source line writes is explicit. -/

abbrev Pixel : Type := ℕ × ℕ × ℕ

/-- Python `int()`: truncation toward zero. -/
def pyInt (x : ℝ) : ℤ := if 0 ≤ x then ⌊x⌋ else ⌈x⌉

/-- One cv2 overlay operation. -/
inductive DrawOp where
  | line (p q : ℤ × ℤ) (color : Pixel) (thickness : ℕ)
  | circle (center : ℤ × ℤ) (radius : ℕ) (color : Pixel) (fill : ℤ)
  | text (s : String) (org : ℕ × ℕ) (scale : ℝ) (color : Pixel) (thickness : ℕ)

/-- An image buffer: camera pixel rows plus rasterized overlay operations. -/
structure Buf where
  data : List (List Pixel)
  ops : List DrawOp

/-- `frame.copy()`: a new buffer with contents equal to the original's. -/
def Buf.copy (b : Buf) : Buf := ⟨b.data, b.ops⟩

/-- `cv2.line(img, p, q, color, thickness)`. -/
def cv2_line (img : Buf) (p q : ℤ × ℤ) (color : Pixel) (thickness : ℕ) : Buf :=
  ⟨img.data, img.ops ++ [.line p q color thickness]⟩

/-- `cv2.circle(img, c, radius, color, fill)`. -/
def cv2_circle (img : Buf) (c : ℤ × ℤ) (radius : ℕ) (color : Pixel) (fill : ℤ) :
    Buf :=
  ⟨img.data, img.ops ++ [.circle c radius color fill]⟩

/-- `cv2.putText(img, s, org, font, scale, color, thickness)` (font omitted:
the source always passes `FONT_HERSHEY_SIMPLEX`). -/
def cv2_putText (img : Buf) (s : String) (org : ℕ × ℕ) (scale : ℝ)
    (color : Pixel) (thickness : ℕ) : Buf :=
  ⟨img.data, img.ops ++ [.text s org scale color thickness]⟩

/-- `draw_pt`: converts a math-space point back to un-mirrored integer frame
coordinates. -/
def draw_pt (w : ℝ) (L : Landmarks) (pt : Point) : ℤ × ℤ :=
  (if is_facing_left L then pyInt (w - pt.1) else pyInt pt.1, pyInt pt.2)

/-- The debug angle text `f"T1:{int(theta1)} T2:... T4:{int(theta4)}"`. -/
def debugText (w : ℝ) (L : Landmarks) : String :=
  "T1:" ++ toString (pyInt (theta1 w L)) ++ " T2:" ++
    toString (pyInt (theta2 w L)) ++ " T3:" ++
    toString (pyInt (theta3 w L)) ++ " T4:" ++ toString (pyInt (theta4 w L))

/-- Result of one `process_frame` call: the caller's frame buffer and the
raw pixel-landmark array as they stand after the call, and the returned
output frame. -/
structure FrameResult where
  frame_bgr : Buf
  lms_px : Option Landmarks
  out_frame : Buf

/-- `process_frame(detector, frame_bgr, timestamp_ms)`, lines 54-130.  The
external detector call is abstracted as its result: `none` when
`det.pose_landmarks` is empty, otherwise the normalized landmarks of the
first pose.  Landmarks are scaled to pixel space by the frame width `w` and
height `h`; all drawing targets the copy `out_frame`. -/
def process_frame (det : Option Landmarks) (frame : Buf) (w hgt : ℝ) :
    FrameResult :=
  let out0 := frame.copy
  match det with
  | none => ⟨frame, none, out0⟩
  | some lm =>
      let lms : Landmarks := fun i => ((lm i).1 * w, (lm i).2 * hgt)
      let head := headPt w lms
      let neck := neckPt w lms
      let chest := chestPt w lms
      let hip := hipPt w lms
      let lc := postureResult w lms
      let d := draw_pt w lms
      let o1 := cv2_line out0 (d head) (d neck) (255, 255, 0) 2
      let o2 := cv2_line o1 (d neck) (d chest) (255, 255, 0) 2
      let o3 := cv2_line o2 (d chest) (d hip) (255, 255, 0) 2
      let o4 := cv2_circle o3 (d head) 6 (0, 255, 255) (-1)
      let o5 := cv2_circle o4 (d neck) 6 (0, 255, 255) (-1)
      let o6 := cv2_circle o5 (d chest) 6 (0, 255, 255) (-1)
      let o7 := cv2_circle o6 (d hip) 6 (0, 255, 255) (-1)
      let o8 := cv2_putText o7 ("Posture: " ++ lc.1) (30, 50) 1 lc.2 2
      let o9 := cv2_putText o8 (debugText w lms) (30, 90) 0.6 (200, 200, 200) 1
      let o10 := cv2_putText o9
        ("Facing: " ++ if is_facing_left lms then "LEFT" else "RIGHT")
        (30, 120) 0.6 (0, 255, 255) 1
      ⟨frame, some lms, o10⟩

/-! ### Concrete landmark fixtures for witnesses and counterexamples -/

/-- Vertical-spine fixture: nose at (50,0), shoulders at (40,10)/(60,10),
hips at (40,30)/(60,30); anchors lie on the vertical line x = 50. -/
def L0 : Landmarks := fun i =>
  if i = 0 then (50, 0)
  else if i = 11 then (40, 10)
  else if i = 12 then (60, 10)
  else if i = 23 then (40, 30)
  else if i = 24 then (60, 30)
  else (0, 0)

/-- Fixture with the nose strictly right of the shoulder average
(`noseX = 70 > 50 = avgShX`). -/
def L1 : Landmarks := fun i =>
  if i = 0 then (70, 0)
  else if i = 11 then (40, 10)
  else if i = 12 then (60, 10)
  else if i = 23 then (40, 30)
  else if i = 24 then (60, 30)
  else (0, 0)

/-- Tie fixture: the nose x equals the average shoulder x (both 50), while
the chest centroid is horizontally offset from the neck. -/
def Lc : Landmarks := fun i =>
  if i = 0 then (50, 0)
  else if i = 11 then (40, 10)
  else if i = 12 then (60, 10)
  else if i = 23 then (0, 10)
  else if i = 24 then (20, 10)
  else (0, 0)

/-! ### Helper lemmas about `angle_between` -/

lemma degrees_abs (r : ℝ) : |degrees r| = |r| * (180 / π) := by
  have hπ : (0 : ℝ) < 180 / π := by positivity
  rw [degrees, abs_mul, abs_of_pos hπ]

lemma abs_degrees_arg_le (z : ℂ) : |degrees (Complex.arg z)| ≤ 180 := by
  have h := Complex.abs_arg_le_pi z
  have hπ : (0 : ℝ) < 180 / π := by positivity
  have : |Complex.arg z| * (180 / π) ≤ π * (180 / π) :=
    mul_le_mul_of_nonneg_right h hπ.le
  have hcancel : π * (180 / π) = 180 := by
    field_simp
  rw [degrees_abs]
  linarith [this, hcancel ▸ this]

/-- The `> 180` branch in `angle_between` never fires: the function always
returns the plain absolute degree value. -/
lemma angle_between_eq_nobranch (p1 p2 : Point) :
    angle_between p1 p2 = angle_between_nobranch p1 p2 := by
  unfold angle_between angle_between_nobranch atan2
  simp only []
  rw [if_neg]
  push_neg
  exact abs_degrees_arg_le _

lemma angle_between_nonneg (p1 p2 : Point) : 0 ≤ angle_between p1 p2 := by
  rw [angle_between_eq_nobranch]
  exact abs_nonneg _

lemma angle_between_le_180 (p1 p2 : Point) : angle_between p1 p2 ≤ 180 := by
  rw [angle_between_eq_nobranch]
  exact abs_degrees_arg_le _

lemma pi_mul_deg : π * (180 / π) = 180 := by
  field_simp

/-- Evaluation on a rightward horizontal vector: angle 0. -/
lemma angle_between_horiz_pos (p1 p2 : Point) (hx : p2.1 < p1.1)
    (hy : p1.2 = p2.2) : angle_between p1 p2 = 0 := by
  rw [angle_between_eq_nobranch]
  unfold angle_between_nobranch atan2
  have hz : Complex.arg ⟨p1.1 - p2.1, p1.2 - p2.2⟩ = 0 := by
    apply Complex.arg_eq_zero_iff.2
    constructor
    · simp only [Complex.ofReal_re]
      linarith
    · simp only [Complex.ofReal_im]
      linarith [hy]
  rw [hz]
  simp [degrees]

/-- Evaluation on a leftward horizontal vector: angle 180. -/
lemma angle_between_horiz_neg (p1 p2 : Point) (hx : p1.1 < p2.1)
    (hy : p1.2 = p2.2) : angle_between p1 p2 = 180 := by
  rw [angle_between_eq_nobranch]
  unfold angle_between_nobranch atan2
  have hz : Complex.arg ⟨p1.1 - p2.1, p1.2 - p2.2⟩ = π := by
    apply Complex.arg_eq_pi_iff.2
    constructor
    · simp only [Complex.ofReal_re]
      linarith
    · simp only [Complex.ofReal_im]
      linarith [hy]
  rw [hz]
  rw [degrees, pi_mul_deg]
  norm_num

/-- Evaluation on a vertical vector (either direction): angle 90. -/
lemma angle_between_vert (p1 p2 : Point) (hx : p1.1 = p2.1)
    (hy : p1.2 ≠ p2.2) : angle_between p1 p2 = 90 := by
  rw [angle_between_eq_nobranch]
  unfold angle_between_nobranch atan2
  rcases lt_or_gt_of_ne hy with h | h
  · have hz : Complex.arg ⟨p1.1 - p2.1, p1.2 - p2.2⟩ = -(π / 2) := by
      apply Complex.arg_eq_neg_pi_div_two_iff.2
      constructor
      · simp only [Complex.ofReal_re]
        linarith
      · simp only [Complex.ofReal_im]
        linarith
    rw [hz, degrees]
    rw [abs_mul]
    rw [abs_neg, abs_div]
    rw [abs_of_pos Real.pi_pos, abs_of_pos (by positivity : (0:ℝ) < 180 / π)]
    field_simp
    ring
  · have hz : Complex.arg ⟨p1.1 - p2.1, p1.2 - p2.2⟩ = π / 2 := by
      apply Complex.arg_eq_pi_div_two_iff.2
      constructor
      · simp only [Complex.ofReal_re]
        linarith
      · simp only [Complex.ofReal_im]
        linarith
    rw [hz, degrees]
    rw [abs_mul]
    rw [abs_div, abs_of_pos Real.pi_pos,
      abs_of_pos (by positivity : (0:ℝ) < 180 / π)]
    field_simp
    ring

/-- For a nonzero complex number, negation turns the absolute argument into
its supplement. -/
lemma abs_arg_neg_eq (z : ℂ) (hz : z ≠ 0) :
    |Complex.arg (-z)| = π - |Complex.arg z| := by
  rcases lt_trichotomy z.im 0 with him | him | him
  · rw [Complex.arg_neg_eq_arg_add_pi_of_im_neg him]
    have h1 : Complex.arg z < 0 := Complex.arg_neg_iff.2 him
    have h2 : -π < Complex.arg z := Complex.neg_pi_lt_arg z
    rw [abs_of_nonneg (by linarith), abs_of_neg h1]
    ring
  · rcases lt_trichotomy z.re 0 with hre | hre | hre
    · have h1 : Complex.arg z = π := Complex.arg_eq_pi_iff.2 ⟨hre, him⟩
      have h2 : Complex.arg (-z) = 0 := by
        apply Complex.arg_eq_zero_iff.2
        constructor
        · simp only [Complex.neg_re]
          linarith
        · simp only [Complex.neg_im, him, neg_zero]
      rw [h1, h2, abs_of_nonneg Real.pi_pos.le]
      simp
    · exact absurd (Complex.ext hre him) hz
    · have h1 : Complex.arg z = 0 := Complex.arg_eq_zero_iff.2 ⟨hre.le, him⟩
      have h2 : Complex.arg (-z) = π := by
        apply Complex.arg_eq_pi_iff.2
        constructor
        · simp only [Complex.neg_re]
          linarith
        · simp only [Complex.neg_im, him, neg_zero]
      rw [h1, h2, abs_of_nonneg Real.pi_pos.le]
      simp
  · rw [Complex.arg_neg_eq_arg_sub_pi_of_im_pos him]
    have h1 : 0 ≤ Complex.arg z := Complex.arg_nonneg_iff.2 him.le
    have h2 : Complex.arg z ≤ π := Complex.arg_le_pi z
    rw [abs_of_nonneg h1, abs_of_nonpos (by linarith)]
    ring

/-! ### Helper lemmas about mirroring -/

lemma mirrorX_mirrorX (w : ℝ) (L : Landmarks) : mirrorX w (mirrorX w L) = L := by
  funext i
  unfold mirrorX
  refine Prod.ext ?_ rfl
  simp

lemma noseX_mirrorX (w : ℝ) (L : Landmarks) :
    noseX (mirrorX w L) = w - noseX L := rfl

lemma avgShX_mirrorX (w : ℝ) (L : Landmarks) :
    avgShX (mirrorX w L) = w - avgShX L := by
  unfold avgShX mirrorX
  ring

lemma is_facing_left_mirrorX (w : ℝ) (L : Landmarks) :
    is_facing_left (mirrorX w L) ↔ avgShX L < noseX L := by
  unfold is_facing_left
  rw [noseX_mirrorX, avgShX_mirrorX]
  constructor <;> intro h <;> linarith

lemma math_lms_mirrorX (w : ℝ) (L : Landmarks) (h : noseX L ≠ avgShX L) :
    math_lms w (mirrorX w L) = math_lms w L := by
  rcases lt_or_gt_of_ne h with hlt | hgt
  · unfold math_lms
    rw [if_pos (show is_facing_left L from hlt),
      if_neg (show ¬ is_facing_left (mirrorX w L) by
        rw [is_facing_left_mirrorX]
        linarith)]
  · unfold math_lms
    rw [if_neg (show ¬ is_facing_left L from not_lt.2 hgt.le),
      if_pos (show is_facing_left (mirrorX w L) by
        rw [is_facing_left_mirrorX]
        linarith)]
    exact mirrorX_mirrorX w L

/-! ### Claim theorems -/

/-- C1: `classify_posture` implements exactly the ordered decision rule:
it returns "L-Posture" with color (0,165,255) iff `θ2 > 105.0` and
`θ3 > 110.0` (strict); otherwise it returns "T-Posture" with color
(0,0,255) iff `θ1 ≤ 70.0` and `θ4 ≤ 80.0` (non-strict); otherwise it
returns "Good Posture" with color (0,255,0).  The L-Posture test is
evaluated first. -/
theorem classify_posture_decision_rule (t1 t2 t3 t4 : ℝ) :
    (classify_posture t1 t2 t3 t4 = ("L-Posture", (0, 165, 255)) ↔
      t2 > 105.0 ∧ t3 > 110.0) ∧
    (classify_posture t1 t2 t3 t4 = ("T-Posture", (0, 0, 255)) ↔
      (¬(t2 > 105.0 ∧ t3 > 110.0) ∧ t1 ≤ 70.0 ∧ t4 ≤ 80.0)) ∧
    (classify_posture t1 t2 t3 t4 = ("Good Posture", (0, 255, 0)) ↔
      (¬(t2 > 105.0 ∧ t3 > 110.0) ∧ ¬(t1 ≤ 70.0 ∧ t4 ≤ 80.0))) := by
  unfold classify_posture TH1 TH2 TH3 TH4
  split_ifs with h1 h2 <;> simp_all [Prod.ext_iff]

/-- C3: `angle_between` always returns a value in [0, 180]; the guard
`ang > 180` of the post-processing branch is false on every input, so the
branch is dead and removing it does not change the result. -/
theorem angle_between_range_and_dead_branch (p1 p2 : Point) :
    0 ≤ angle_between p1 p2 ∧ angle_between p1 p2 ≤ 180 ∧
    ¬ |degrees (atan2 (p1.2 - p2.2) (p1.1 - p2.1))| > 180 ∧
    angle_between p1 p2 = angle_between_nobranch p1 p2 :=
  ⟨angle_between_nonneg p1 p2, angle_between_le_180 p1 p2,
   not_lt.2 (by unfold atan2; exact abs_degrees_arg_le _),
   angle_between_eq_nobranch p1 p2⟩

/-- C4 counterexample: `angle_between` is not symmetric.  At p1 = (1,0),
p2 = (0,0) the two orders give 0 and 180. -/
theorem angle_between_symmetry_cex :
    angle_between ((1 : ℝ), (0 : ℝ)) ((0 : ℝ), (0 : ℝ)) = 0 ∧
    angle_between ((0 : ℝ), (0 : ℝ)) ((1 : ℝ), (0 : ℝ)) = 180 ∧
    angle_between ((1 : ℝ), (0 : ℝ)) ((0 : ℝ), (0 : ℝ)) ≠
      angle_between ((0 : ℝ), (0 : ℝ)) ((1 : ℝ), (0 : ℝ)) := by
  have h1 : angle_between ((1 : ℝ), (0 : ℝ)) ((0 : ℝ), (0 : ℝ)) = 0 :=
    angle_between_horiz_pos _ _ (by norm_num) (by norm_num)
  have h2 : angle_between ((0 : ℝ), (0 : ℝ)) ((1 : ℝ), (0 : ℝ)) = 180 :=
    angle_between_horiz_neg _ _ (by norm_num) (by norm_num)
  refine ⟨h1, h2, ?_⟩
  rw [h1, h2]
  norm_num

/-- C4 (amended): swapping the arguments of `angle_between` gives the
supplementary angle: for distinct points the two values sum to 180. -/
theorem angle_between_supplementary (p1 p2 : Point) (h : p1 ≠ p2) :
    angle_between p1 p2 + angle_between p2 p1 = 180 := by
  rw [angle_between_eq_nobranch, angle_between_eq_nobranch]
  unfold angle_between_nobranch atan2
  set z : ℂ := ⟨p1.1 - p2.1, p1.2 - p2.2⟩ with hzdef
  have hneg : (⟨p2.1 - p1.1, p2.2 - p1.2⟩ : ℂ) = -z := by
    rw [hzdef]
    apply Complex.ext <;> simp
  have hz0 : z ≠ 0 := by
    intro h0
    apply h
    have hre := congrArg Complex.re h0
    have him := congrArg Complex.im h0
    rw [hzdef] at hre him
    simp at hre him
    apply Prod.ext <;> linarith
  rw [hneg, degrees_abs, degrees_abs, abs_arg_neg_eq z hz0]
  linear_combination pi_mul_deg

/-- C4 witness for the amended claim, at p1 = (1,0), p2 = (0,0). -/
theorem angle_between_supplementary_witness :
    (((1 : ℝ), (0 : ℝ)) : Point) ≠ ((0 : ℝ), (0 : ℝ)) ∧
    angle_between ((1 : ℝ), (0 : ℝ)) ((0 : ℝ), (0 : ℝ)) +
      angle_between ((0 : ℝ), (0 : ℝ)) ((1 : ℝ), (0 : ℝ)) = 180 :=
  ⟨by norm_num [Prod.ext_iff],
   angle_between_supplementary _ _ (by norm_num [Prod.ext_iff])⟩

/-- C8: `midpoint` is commutative and returns the componentwise arithmetic
mean of its two arguments. -/
theorem midpoint_py_comm (a b : Point) :
    midpoint_py a b = midpoint_py b a ∧
    (midpoint_py a b).1 = (a.1 + b.1) / 2 ∧
    (midpoint_py a b).2 = (a.2 + b.2) / 2 := by
  unfold midpoint_py
  refine ⟨?_, by norm_num, by norm_num⟩
  simp only [Prod.ext_iff]
  constructor <;> ring

/-- C9: `classify_posture` is total and deterministic: equal real inputs
give equal label and color, and on every input the result is one of the
three label/color pairs. -/
theorem classify_posture_total_det (t1 t2 t3 t4 s1 s2 s3 s4 : ℝ)
    (h1 : t1 = s1) (h2 : t2 = s2) (h3 : t3 = s3) (h4 : t4 = s4) :
    classify_posture t1 t2 t3 t4 = classify_posture s1 s2 s3 s4 ∧
    (classify_posture t1 t2 t3 t4 = ("L-Posture", (0, 165, 255)) ∨
     classify_posture t1 t2 t3 t4 = ("T-Posture", (0, 0, 255)) ∨
     classify_posture t1 t2 t3 t4 = ("Good Posture", (0, 255, 0))) := by
  subst h1 h2 h3 h4
  refine ⟨rfl, ?_⟩
  unfold classify_posture
  split_ifs <;> simp

/-- C9 witness at the all-90 input. -/
theorem classify_posture_total_det_witness :
    classify_posture 90 90 90 90 = classify_posture 90 90 90 90 ∧
    (classify_posture 90 90 90 90 = ("L-Posture", (0, 165, 255)) ∨
     classify_posture 90 90 90 90 = ("T-Posture", (0, 0, 255)) ∨
     classify_posture 90 90 90 90 = ("Good Posture", (0, 255, 0))) :=
  classify_posture_total_det 90 90 90 90 90 90 90 90 rfl rfl rfl rfl

/-- C5: the feature extractor derives head, neck, chest (centroid of the
four torso landmarks), and hip exactly as specified, and
`θ4 = 0.6·θ1 + 0.2·θ2 + 0.2·θ3` with `θ1, θ2, θ3` the pairwise angles of
consecutive anchors. -/
theorem feature_extractor_spec (w : ℝ) (L : Landmarks) :
    headPt w L = math_lms w L 0 ∧
    neckPt w L = midpoint_py (math_lms w L 11) (math_lms w L 12) ∧
    chestPt w L =
      ((∑ i ∈ ({11, 12, 23, 24} : Finset ℕ), (math_lms w L i).1) / 4,
       (∑ i ∈ ({11, 12, 23, 24} : Finset ℕ), (math_lms w L i).2) / 4) ∧
    hipPt w L = midpoint_py (math_lms w L 23) (math_lms w L 24) ∧
    theta1 w L = angle_between (headPt w L) (neckPt w L) ∧
    theta2 w L = angle_between (neckPt w L) (chestPt w L) ∧
    theta3 w L = angle_between (chestPt w L) (hipPt w L) ∧
    theta4 w L = 0.6 * theta1 w L + 0.2 * theta2 w L + 0.2 * theta3 w L := by
  refine ⟨rfl, rfl, ?_, rfl, rfl, rfl, rfl, rfl⟩
  unfold chestPt
  have hs : ({11, 12, 23, 24} : Finset ℕ) =
      insert 11 (insert 12 (insert 23 ({24} : Finset ℕ))) := rfl
  rw [hs]
  simp only [Prod.ext_iff]
  rw [Finset.sum_insert (by decide), Finset.sum_insert (by decide),
    Finset.sum_insert (by decide), Finset.sum_singleton,
    Finset.sum_insert (by decide), Finset.sum_insert (by decide),
    Finset.sum_insert (by decide), Finset.sum_singleton]
  norm_num
  constructor <;> ring

/-- C6: whenever the four anchor points lie on one vertical line with head
above neck above chest above hip (image y grows downward) in a facing-right
orientation, all four angles are 90 degrees and the classifier returns
"Good Posture". -/
theorem vertical_anchors_good_posture (w : ℝ) (L : Landmarks)
    (_hface : ¬ is_facing_left L)
    (hx1 : (headPt w L).1 = (neckPt w L).1)
    (hx2 : (neckPt w L).1 = (chestPt w L).1)
    (hx3 : (chestPt w L).1 = (hipPt w L).1)
    (hy1 : (headPt w L).2 < (neckPt w L).2)
    (hy2 : (neckPt w L).2 < (chestPt w L).2)
    (hy3 : (chestPt w L).2 < (hipPt w L).2) :
    theta1 w L = 90 ∧ theta2 w L = 90 ∧ theta3 w L = 90 ∧ theta4 w L = 90 ∧
    postureResult w L = ("Good Posture", (0, 255, 0)) := by
  have h1 : theta1 w L = 90 := angle_between_vert _ _ hx1 (ne_of_lt hy1)
  have h2 : theta2 w L = 90 := angle_between_vert _ _ hx2 (ne_of_lt hy2)
  have h3 : theta3 w L = 90 := angle_between_vert _ _ hx3 (ne_of_lt hy3)
  have h4 : theta4 w L = 90 := by
    unfold theta4
    rw [h1, h2, h3]
    norm_num
  refine ⟨h1, h2, h3, h4, ?_⟩
  unfold postureResult classify_posture TH1 TH2 TH3 TH4
  rw [h1, h2, h3, h4]
  norm_num

/-- C6 witness: the vertical-spine fixture `L0` at frame width 100. -/
theorem vertical_anchors_good_posture_witness :
    (¬ is_facing_left L0) ∧
    (headPt 100 L0).1 = (neckPt 100 L0).1 ∧
    (neckPt 100 L0).1 = (chestPt 100 L0).1 ∧
    (chestPt 100 L0).1 = (hipPt 100 L0).1 ∧
    (headPt 100 L0).2 < (neckPt 100 L0).2 ∧
    (neckPt 100 L0).2 < (chestPt 100 L0).2 ∧
    (chestPt 100 L0).2 < (hipPt 100 L0).2 ∧
    (theta1 100 L0 = 90 ∧ theta2 100 L0 = 90 ∧ theta3 100 L0 = 90 ∧
      theta4 100 L0 = 90 ∧
      postureResult 100 L0 = ("Good Posture", (0, 255, 0))) := by
  have hface : ¬ is_facing_left L0 := by
    unfold is_facing_left noseX avgShX L0
    norm_num
  have e0 : math_lms 100 L0 = L0 := by
    unfold math_lms
    rw [if_neg hface]
  have hh : headPt 100 L0 = (50, 0) := by
    rw [headPt, e0]
    norm_num [L0]
  have hn : neckPt 100 L0 = (50, 10) := by
    rw [neckPt, e0]
    norm_num [L0, midpoint_py, Prod.ext_iff]
  have hc : chestPt 100 L0 = (50, 20) := by
    rw [chestPt, e0]
    norm_num [L0, Prod.ext_iff]
  have hp : hipPt 100 L0 = (50, 30) := by
    rw [hipPt, e0]
    norm_num [L0, midpoint_py, Prod.ext_iff]
  have hx1 : (headPt 100 L0).1 = (neckPt 100 L0).1 := by rw [hh, hn]
  have hx2 : (neckPt 100 L0).1 = (chestPt 100 L0).1 := by rw [hn, hc]
  have hx3 : (chestPt 100 L0).1 = (hipPt 100 L0).1 := by rw [hc, hp]
  have hy1 : (headPt 100 L0).2 < (neckPt 100 L0).2 := by
    rw [hh, hn]
    norm_num
  have hy2 : (neckPt 100 L0).2 < (chestPt 100 L0).2 := by
    rw [hn, hc]
    norm_num
  have hy3 : (chestPt 100 L0).2 < (hipPt 100 L0).2 := by
    rw [hc, hp]
    norm_num
  exact ⟨hface, hx1, hx2, hx3, hy1, hy2, hy3,
    vertical_anchors_good_posture 100 L0 hface hx1 hx2 hx3 hy1 hy2 hy3⟩

/-- C2 (amended): for every pixel landmark set whose nose x differs from the
average shoulder x, the pipeline computes identical angles and label on the
set and on its full horizontal mirror, with the orientation flag flipped.
(At the tie `nose_x = avg_shoulder_x` the flag is false for both and the
angles can differ; see the counterexample.) -/
theorem pipeline_mirror_invariant (w : ℝ) (L : Landmarks)
    (h : noseX L ≠ avgShX L) :
    theta1 w (mirrorX w L) = theta1 w L ∧
    theta2 w (mirrorX w L) = theta2 w L ∧
    theta3 w (mirrorX w L) = theta3 w L ∧
    theta4 w (mirrorX w L) = theta4 w L ∧
    postureResult w (mirrorX w L) = postureResult w L ∧
    (is_facing_left (mirrorX w L) ↔ ¬ is_facing_left L) := by
  have hm := math_lms_mirrorX w L h
  refine ⟨?_, ?_, ?_, ?_, ?_, ?_⟩
  · simp only [theta1, headPt, neckPt, hm]
  · simp only [theta2, neckPt, chestPt, hm]
  · simp only [theta3, chestPt, hipPt, hm]
  · simp only [theta4, theta1, theta2, theta3, headPt, neckPt, chestPt,
      hipPt, hm]
  · simp only [postureResult, theta1, theta2, theta3, theta4, headPt,
      neckPt, chestPt, hipPt, hm]
  · rw [is_facing_left_mirrorX]
    unfold is_facing_left
    constructor
    · intro h1
      linarith
    · intro h1
      exact lt_of_le_of_ne (not_lt.1 h1) (Ne.symm h)

/-- C2 witness: the fixture `L1` (nose right of the shoulder average) at
frame width 100. -/
theorem pipeline_mirror_invariant_witness :
    noseX L1 ≠ avgShX L1 ∧
    (theta1 100 (mirrorX 100 L1) = theta1 100 L1 ∧
     theta2 100 (mirrorX 100 L1) = theta2 100 L1 ∧
     theta3 100 (mirrorX 100 L1) = theta3 100 L1 ∧
     theta4 100 (mirrorX 100 L1) = theta4 100 L1 ∧
     postureResult 100 (mirrorX 100 L1) = postureResult 100 L1 ∧
     (is_facing_left (mirrorX 100 L1) ↔ ¬ is_facing_left L1)) :=
  ⟨by unfold noseX avgShX L1; norm_num,
   pipeline_mirror_invariant 100 L1 (by unfold noseX avgShX L1; norm_num)⟩

/-- C2 counterexample: at the tie fixture `Lc` (nose x equals average
shoulder x) the claim fails: θ2 is 0 on `Lc` but 180 on its mirror, and the
orientation flag is false for both runs instead of flipping. -/
theorem pipeline_mirror_invariant_cex :
    theta2 100 Lc = 0 ∧ theta2 100 (mirrorX 100 Lc) = 180 ∧
    theta2 100 (mirrorX 100 Lc) ≠ theta2 100 Lc ∧
    ¬ is_facing_left Lc ∧ ¬ is_facing_left (mirrorX 100 Lc) := by
  have hface : ¬ is_facing_left Lc := by
    unfold is_facing_left noseX avgShX Lc
    norm_num
  have hface' : ¬ is_facing_left (mirrorX 100 Lc) := by
    rw [is_facing_left_mirrorX]
    unfold noseX avgShX Lc
    norm_num
  have e0 : math_lms 100 Lc = Lc := by
    unfold math_lms
    rw [if_neg hface]
  have e1 : math_lms 100 (mirrorX 100 Lc) = mirrorX 100 Lc := by
    unfold math_lms
    rw [if_neg hface']
  have hn : neckPt 100 Lc = (50, 10) := by
    rw [neckPt, e0]
    norm_num [Lc, midpoint_py, Prod.ext_iff]
  have hc : chestPt 100 Lc = (30, 10) := by
    rw [chestPt, e0]
    norm_num [Lc, Prod.ext_iff]
  have hn' : neckPt 100 (mirrorX 100 Lc) = (50, 10) := by
    rw [neckPt, e1]
    norm_num [Lc, mirrorX, midpoint_py, Prod.ext_iff]
  have hc' : chestPt 100 (mirrorX 100 Lc) = (70, 10) := by
    rw [chestPt, e1]
    norm_num [Lc, mirrorX, Prod.ext_iff]
  have t2 : theta2 100 Lc = 0 := by
    rw [theta2, hn, hc]
    exact angle_between_horiz_pos _ _ (by norm_num) (by norm_num)
  have t2' : theta2 100 (mirrorX 100 Lc) = 180 := by
    rw [theta2, hn', hc']
    exact angle_between_horiz_neg _ _ (by norm_num) (by norm_num)
  refine ⟨t2, t2', ?_, hface, hface'⟩
  rw [t2, t2']
  norm_num

/-- C7: when the detector reports no landmarks, `process_frame` returns a
frame equal byte-for-byte to the input with no overlay operation drawn;
and whenever landmarks are present the returned frame carries overlay
operations beyond the input's. -/
theorem process_frame_no_landmarks_passthrough (frame : Buf) (w hgt : ℝ) :
    (process_frame none frame w hgt).out_frame = frame ∧
    (process_frame none frame w hgt).out_frame.data = frame.data ∧
    (process_frame none frame w hgt).out_frame.ops = frame.ops ∧
    ∀ lm, (process_frame (some lm) frame w hgt).out_frame.ops ≠ frame.ops := by
  refine ⟨rfl, rfl, rfl, fun lm hEq => ?_⟩
  have hlen := congrArg List.length hEq
  simp only [process_frame, Buf.copy, cv2_line, cv2_circle, cv2_putText,
    List.length_append, List.length_cons, List.length_nil] at hlen
  omega

/-- C10: `process_frame` never mutates the caller's frame buffer or the raw
pixel-landmark array: the returned caller frame is unchanged for every
detector result, and after the call the raw landmark array still holds
exactly the freshly scaled pixel landmarks (the mirror was applied to a
copy). -/
theorem process_frame_no_input_mutation (frame : Buf) (w hgt : ℝ) :
    (∀ det, (process_frame det frame w hgt).frame_bgr = frame) ∧
    (∀ lm, (process_frame (some lm) frame w hgt).lms_px =
      some (fun i => ((lm i).1 * w, (lm i).2 * hgt))) := by
  refine ⟨fun det => ?_, fun lm => rfl⟩
  cases det <;> rfl
